import Mathlib

/-!
Verification of the waveform inspection and transformation utility specified
for the harmonyhub repository.  The source (src/paul_python/capstone.py) is a
linear script of external library calls; the specification distils it into a
single component, `WaveformSession`, with operations `load`, `slice` and
`pitchShift` over an `AudioBuffer` data model.  Those operations are not
implemented under src/ (the script delegates to librosa), so they are modelled
here from the words of the specification; the one piece of behaviour that is
directly in the source — the clamping semantics of the Python slice expression
`y[0:200000]` on line 42 — is embedded separately as `pySlice`.
-/

namespace HarmonyHub

/-- Error taxonomy of spec section 7: missing input file, unsupported or
corrupt audio, invalid slice bounds, transform failure. -/
inductive Err where
  | NotFoundError
  | DecodeError
  | RangeError
  | ProcessingError
deriving DecidableEq

/-- Data model of spec section 3: an ordered sequence of amplitude samples
(index i corresponds to time i / sample_rate) together with a positive
sample rate.  The amplitude type is kept abstract; no claim depends on
sample arithmetic. -/
structure AudioBuffer (α : Type) where
  samples : List α
  sample_rate : Nat
deriving DecidableEq

/-- Modelled from the spec: `slice(buffer, start_index, end_index)` is absent
from src/ (the script only evaluates the raw Python slice `y[0:200000]`).
Per spec section 4.1 it returns a new `AudioBuffer` containing
`samples[start_index:end_index]` with the same `sample_rate`, and fails with
`RangeError` when `start_index > end_index`, `start_index < 0`, or
`end_index > len(samples)`. -/
def slice {α : Type} (b : AudioBuffer α) (i j : Int) : Except Err (AudioBuffer α) :=
  if i > j ∨ i < 0 ∨ j > (b.samples.length : Int) then
    .error .RangeError
  else
    .ok ⟨(b.samples.drop i.toNat).take (j - i).toNat, b.sample_rate⟩

/-- Python slicing as evaluated by the source at line 42 (`y[0:200000]`):
for nonnegative bounds, `xs[i:j]` keeps the elements with index k such that
i ≤ k < j, silently clamping both bounds to the length of the sequence; the
operation is total and never raises. -/
def pySlice {α : Type} (xs : List α) (i j : Nat) : List α :=
  (xs.take j).drop i

/-- C3: slice fails with RangeError exactly when the indices are unordered or
out of bounds, and succeeds exactly on in-bounds ordered index pairs. -/
theorem slice_rangeError_iff {α : Type} (b : AudioBuffer α) (i j : Int) :
    (slice b i j = .error .RangeError ↔
      (i > j ∨ i < 0 ∨ j > (b.samples.length : Int))) ∧
    ((∃ r, slice b i j = .ok r) ↔
      (i ≤ j ∧ 0 ≤ i ∧ j ≤ (b.samples.length : Int))) := by
  unfold slice
  by_cases h : i > j ∨ i < 0 ∨ j > (b.samples.length : Int)
  · rw [if_pos h]
    constructor
    · exact ⟨fun _ => h, fun _ => rfl⟩
    · constructor
      · rintro ⟨r, hr⟩
        exact nomatch hr
      · rintro ⟨h1, h2, h3⟩
        exfalso
        rcases h with h | h | h
        · omega
        · omega
        · omega
  · rw [if_neg h]
    push_neg at h
    obtain ⟨h1, h2, h3⟩ := h
    constructor
    · constructor
      · intro hc
        exact nomatch hc
      · intro hc
        exfalso
        rcases hc with hc | hc | hc
        · omega
        · omega
        · omega
    · constructor
      · intro _
        exact ⟨h1, h2, h3⟩
      · intro _
        exact ⟨_, rfl⟩

/-- C3 witness: at the concrete buffer [1,2,3] with indices 2 and 1 the slice
fails with RangeError, and with indices 0 and 2 it succeeds. -/
theorem slice_rangeError_iff_witness :
    slice (AudioBuffer.mk ([1, 2, 3] : List Int) 41000) 2 1 = .error .RangeError ∧
    ∃ r, slice (AudioBuffer.mk ([1, 2, 3] : List Int) 41000) 0 2 = .ok r :=
  ⟨(slice_rangeError_iff (AudioBuffer.mk ([1, 2, 3] : List Int) 41000) 2 1).1.mpr
      (by decide),
   (slice_rangeError_iff (AudioBuffer.mk ([1, 2, 3] : List Int) 41000) 0 2).2.mpr
      (by decide)⟩

/-- C4: slicing over the full range is the identity — slice b 0 len(b.samples)
returns a buffer with the same samples in the same order and the same
sample_rate, i.e. b itself. -/
theorem slice_full_range {α : Type} (b : AudioBuffer α) :
    slice b 0 (b.samples.length : Int) = .ok b := by
  unfold slice
  rw [if_neg]
  · simp
  · push_neg
    exact ⟨Int.ofNat_nonneg _, le_refl _, le_refl _⟩

/-- C5: on valid bounds 0 ≤ i ≤ j ≤ len(b.samples), slice succeeds with a
buffer of exactly j - i samples, which are b.samples[i..j) in temporal order,
at the same sample_rate as b. -/
theorem slice_valid {α : Type} (b : AudioBuffer α) (i j : Int)
    (h0 : 0 ≤ i) (hij : i ≤ j) (hj : j ≤ (b.samples.length : Int)) :
    ∃ r, slice b i j = .ok r ∧
      (r.samples.length : Int) = j - i ∧
      r.sample_rate = b.sample_rate ∧
      ∀ k : Nat, ∀ hk : k < r.samples.length, ∀ hk2 : i.toNat + k < b.samples.length,
        r.samples.get ⟨k, hk⟩ = b.samples.get ⟨i.toNat + k, hk2⟩ := by
  refine ⟨⟨(b.samples.drop i.toNat).take (j - i).toNat, b.sample_rate⟩, ?_, ?_, rfl, ?_⟩
  · unfold slice
    rw [if_neg]
    push_neg
    exact ⟨hij, h0, hj⟩
  · simp only [List.length_take, List.length_drop]
    have hi : (i.toNat : Int) = i := Int.toNat_of_nonneg h0
    have hji : ((j - i).toNat : Int) = j - i := Int.toNat_of_nonneg (by omega)
    omega
  · intro k hk hk2
    simp only [List.get_eq_getElem, List.getElem_take, List.getElem_drop]

/-- C5 witness: slicing [5,6,7,8] between indices 1 and 3 yields two samples,
namely samples 1 and 2 of the input, at the same sample rate. -/
theorem slice_valid_witness :
    ∃ r, slice (AudioBuffer.mk ([5, 6, 7, 8] : List Int) 100) 1 3 = .ok r ∧
      (r.samples.length : Int) = 3 - 1 ∧
      r.sample_rate = (AudioBuffer.mk ([5, 6, 7, 8] : List Int) 100).sample_rate ∧
      ∀ k : Nat, ∀ hk : k < r.samples.length,
        ∀ hk2 : (1 : Int).toNat + k <
            (AudioBuffer.mk ([5, 6, 7, 8] : List Int) 100).samples.length,
        r.samples.get ⟨k, hk⟩ =
          (AudioBuffer.mk ([5, 6, 7, 8] : List Int) 100).samples.get
            ⟨(1 : Int).toNat + k, hk2⟩ :=
  slice_valid (AudioBuffer.mk ([5, 6, 7, 8] : List Int) 100) 1 3
    (by decide) (by decide) (by decide)

/-- Contract of the pitch-shift DSP collaborator (spec section 6): given
samples, the sample rate and a semitone count, it returns transformed samples
of equal length whenever it can run at all. -/
def DspContract {α : Type} (dsp : List α → Nat → ℚ → Option (List α)) : Prop :=
  ∀ s sr n out, dsp s sr n = some out → out.length = s.length

/-- Modelled from the spec: `pitchShift(buffer, semitoneSteps)` is absent from
src/ (line 48 of capstone.py delegates to the external librosa facility).
Per spec section 4.1 it delegates to the DSP collaborator and returns a new
AudioBuffer at the same sample_rate, failing with ProcessingError when the
underlying transform cannot run, in particular on an empty buffer; the
collaborator returning none models the remaining cannot-run cases. -/
def pitchShift {α : Type} (dsp : List α → Nat → ℚ → Option (List α))
    (b : AudioBuffer α) (semitoneSteps : ℚ) : Except Err (AudioBuffer α) :=
  if b.samples.isEmpty then .error .ProcessingError
  else
    match dsp b.samples b.sample_rate semitoneSteps with
    | none => .error .ProcessingError
    | some out => .ok ⟨out, b.sample_rate⟩

/-- Modelled from the spec: `load(path, target_sample_rate)` is absent from
src/ (line 28 of capstone.py delegates to the external librosa facility).
The filesystem is a partial map from paths to raw byte contents, and the
decoder collaborator of spec section 6 maps recognized bytes plus a requested
rate to mono samples resampled at that rate, none when the bytes are not
parseable audio. Per spec section 4.1, load fails with NotFoundError when no
file exists at the path, with DecodeError when the decoder rejects the bytes,
and otherwise returns an AudioBuffer at the requested sample rate. -/
def load {α : Type} (fs : String → Option (List Nat))
    (dec : List Nat → Nat → Option (List α))
    (path : String) (target_sample_rate : Nat) : Except Err (AudioBuffer α) :=
  match fs path with
  | none => .error .NotFoundError
  | some bytes =>
    match dec bytes target_sample_rate with
    | none => .error .DecodeError
    | some s => .ok ⟨s, target_sample_rate⟩

/-- Session of spec section 3: owns one current AudioBuffer plus the source
file path used to create it. -/
structure WaveformSession (α : Type) where
  buffer : AudioBuffer α
  path : String

/-- Session-level slice: explicit state passing makes purity with respect to
session state visible — the operation returns the session unchanged together
with its result. -/
def sessionSlice {α : Type} (s : WaveformSession α) (i j : Int) :
    WaveformSession α × Except Err (AudioBuffer α) :=
  (s, slice s.buffer i j)

/-- Session-level pitch shift, likewise returning the unchanged session
together with its result (the caller decides whether to adopt it). -/
def sessionPitchShift {α : Type} (dsp : List α → Nat → ℚ → Option (List α))
    (s : WaveformSession α) (n : ℚ) :
    WaveformSession α × Except Err (AudioBuffer α) :=
  (s, pitchShift dsp s.buffer n)

/-- A concrete DSP collaborator used as a test instance: it shifts each
sample value up by one, preserving length. -/
def shiftUpDsp : List Int → Nat → ℚ → Option (List Int) :=
  fun s _ _ => some (s.map fun x => x + 1)

/-- The test collaborator satisfies the length-preservation contract. -/
theorem shiftUpDsp_contract : DspContract shiftUpDsp := by
  intro s sr n out h
  simp only [shiftUpDsp, Option.some.injEq] at h
  subst h
  simp

/-- A concrete filesystem used as a test instance: one recognized audio file
and one file of non-audio bytes. -/
def demoFs : String → Option (List Nat) := fun p =>
  if p = "song.mp3" then some [1, 2, 3]
  else if p = "noise.bin" then some [9]
  else none

/-- A second filesystem holding the same audio bytes under another path. -/
def demoFsCopy : String → Option (List Nat) := fun p =>
  if p = "copy.mp3" then some [1, 2, 3] else none

/-- A concrete decoder used as a test instance: it recognizes exactly the
bytes [1, 2, 3] and decodes them to three samples. -/
def demoDec : List Nat → Nat → Option (List Int) := fun bytes _ =>
  if bytes = [1, 2, 3] then some [0, 1, 0] else none

/-- C1: whenever pitchShift returns a buffer, that buffer has the same number
of samples and the same sample_rate as the input, for any semitoneSteps
value — in particular for semitoneSteps = 0 — provided the DSP collaborator
meets its length-preservation contract. -/
theorem pitchShift_preserves_shape {α : Type}
    (dsp : List α → Nat → ℚ → Option (List α)) (hc : DspContract dsp)
    (b : AudioBuffer α) (n : ℚ) (r : AudioBuffer α)
    (h : pitchShift dsp b n = .ok r) :
    r.samples.length = b.samples.length ∧ r.sample_rate = b.sample_rate := by
  unfold pitchShift at h
  by_cases he : b.samples.isEmpty
  · simp [he] at h
  · simp only [he, if_neg, Bool.false_eq_true, not_false_iff] at h
    cases hd : dsp b.samples b.sample_rate n with
    | none => rw [hd] at h; simp at h
    | some out =>
      rw [hd] at h
      simp only [Except.ok.injEq] at h
      subst h
      exact ⟨hc _ _ _ _ hd, rfl⟩

/-- C1 witness: the test collaborator applied at steps 0 to a three-sample
buffer returns a three-sample buffer at the same rate. -/
theorem pitchShift_preserves_shape_witness :
    (AudioBuffer.mk ([2, 3, 4] : List Int) 41000).samples.length =
      (AudioBuffer.mk ([1, 2, 3] : List Int) 41000).samples.length ∧
    (AudioBuffer.mk ([2, 3, 4] : List Int) 41000).sample_rate =
      (AudioBuffer.mk ([1, 2, 3] : List Int) 41000).sample_rate :=
  pitchShift_preserves_shape shiftUpDsp shiftUpDsp_contract
    (AudioBuffer.mk ([1, 2, 3] : List Int) 41000) 0
    (AudioBuffer.mk ([2, 3, 4] : List Int) 41000) rfl

/-- C8: on a buffer with empty samples, pitchShift fails with ProcessingError
for every collaborator and step count, no result buffer is produced, and the
session state is unchanged. -/
theorem pitchShift_empty_fails {α : Type}
    (dsp : List α → Nat → ℚ → Option (List α)) (b : AudioBuffer α) (n : ℚ)
    (s : WaveformSession α) (h : b.samples = []) (hs : s.buffer = b) :
    pitchShift dsp b n = .error .ProcessingError ∧
    sessionPitchShift dsp s n = (s, .error .ProcessingError) := by
  have hfail : pitchShift dsp b n = .error .ProcessingError := by
    unfold pitchShift
    rw [if_pos]
    rw [h]
    rfl
  refine ⟨hfail, ?_⟩
  unfold sessionPitchShift
  rw [hs, hfail]

/-- C8 witness: the empty buffer at rate 41000, stored in a session, makes
pitchShift fail with ProcessingError and leaves the session unchanged. -/
theorem pitchShift_empty_fails_witness :
    pitchShift shiftUpDsp (AudioBuffer.mk ([] : List Int) 41000) 4 =
      .error .ProcessingError ∧
    sessionPitchShift shiftUpDsp
        (WaveformSession.mk (AudioBuffer.mk ([] : List Int) 41000) "song.mp3") 4 =
      (WaveformSession.mk (AudioBuffer.mk ([] : List Int) 41000) "song.mp3",
        .error .ProcessingError) :=
  pitchShift_empty_fails shiftUpDsp (AudioBuffer.mk ([] : List Int) 41000) 4
    (WaveformSession.mk (AudioBuffer.mk ([] : List Int) 41000) "song.mp3") rfl rfl

/-- C2: whenever load succeeds, the returned buffer carries exactly the
requested target sample rate. -/
theorem load_sample_rate {α : Type} (fs : String → Option (List Nat))
    (dec : List Nat → Nat → Option (List α)) (path : String)
    (target_sample_rate : Nat) (b : AudioBuffer α)
    (h : load fs dec path target_sample_rate = .ok b) :
    b.sample_rate = target_sample_rate := by
  cases hf : fs path with
  | none => simp [load, hf] at h
  | some bytes =>
    cases hd : dec bytes target_sample_rate with
    | none => simp [load, hf, hd] at h
    | some smp =>
      simp only [load, hf, hd, Except.ok.injEq] at h
      rw [← h]

/-- C2 witness: loading the recognized test file at rate 41000 yields a
buffer whose sample_rate is 41000. -/
theorem load_sample_rate_witness :
    (AudioBuffer.mk ([0, 1, 0] : List Int) 41000).sample_rate = 41000 :=
  load_sample_rate demoFs demoDec "song.mp3" 41000
    (AudioBuffer.mk ([0, 1, 0] : List Int) 41000) rfl

/-- C6: load fails with NotFoundError exactly on a missing file, with
DecodeError when the file exists but its bytes are not parseable audio,
and no other error is ever returned. -/
theorem load_error_modes {α : Type} (fs : String → Option (List Nat))
    (dec : List Nat → Nat → Option (List α)) (path : String) (sr : Nat) :
    (fs path = none → load fs dec path sr = .error .NotFoundError) ∧
    (∀ bytes, fs path = some bytes → dec bytes sr = none →
      load fs dec path sr = .error .DecodeError) ∧
    (∀ e, load fs dec path sr = .error e →
      e = .NotFoundError ∨ e = .DecodeError) := by
  refine ⟨?_, ?_, ?_⟩
  · intro hf; simp [load, hf]
  · intro bytes hf hd; simp [load, hf, hd]
  · intro e he
    cases hf : fs path with
    | none =>
      simp only [load, hf, Except.error.injEq] at he
      exact Or.inl he.symm
    | some bytes =>
      cases hd : dec bytes sr with
      | none =>
        simp only [load, hf, hd, Except.error.injEq] at he
        exact Or.inr he.symm
      | some smp => simp [load, hf, hd] at he

/-- C6 witness: on the test filesystem, a missing path gives NotFoundError
and a file of non-audio bytes gives DecodeError. -/
theorem load_error_modes_witness :
    load demoFs demoDec "missing.mp3" 41000 = .error .NotFoundError ∧
    load demoFs demoDec "noise.bin" 41000 = .error .DecodeError :=
  ⟨(load_error_modes demoFs demoDec "missing.mp3" 41000).1 rfl,
   (load_error_modes demoFs demoDec "noise.bin" 41000).2.1 [9] rfl rfl⟩

/-- C7: transforms never mutate their input — in the explicit state-passing
model, slice and pitchShift return the session, and hence its stored buffer
with its samples and sample_rate, unchanged, producing their result as a
separate new buffer. -/
theorem transforms_immutable {α : Type}
    (dsp : List α → Nat → ℚ → Option (List α)) (s : WaveformSession α)
    (i j : Int) (n : ℚ) :
    (sessionSlice s i j).1 = s ∧
    (sessionPitchShift dsp s n).1 = s ∧
    (sessionSlice s i j).1.buffer.samples = s.buffer.samples ∧
    (sessionPitchShift dsp s n).1.buffer.sample_rate = s.buffer.sample_rate :=
  ⟨rfl, rfl, rfl, rfl⟩

/-- C9: the Python slice `xs[0:e]` evaluated by the source never fails for an
end bound beyond the length — it silently clamps and returns all samples of
xs, as in `y[0:200000]` at line 42. -/
theorem pySlice_overlong_clamps {α : Type} (xs : List α) (e : Nat)
    (h : xs.length < e) :
    pySlice xs 0 e = xs ∧ (pySlice xs 0 e).length = xs.length := by
  have hx : pySlice xs 0 e = xs := by
    unfold pySlice
    rw [List.drop_zero, List.take_of_length_le (le_of_lt h)]
  exact ⟨hx, by rw [hx]⟩

/-- C9 witness: slicing a three-element list with the literal end bound
200000 from the source returns the whole list. -/
theorem pySlice_overlong_clamps_witness :
    pySlice ([1, 2, 3] : List Int) 0 200000 = [1, 2, 3] ∧
    (pySlice ([1, 2, 3] : List Int) 0 200000).length =
      ([1, 2, 3] : List Int).length :=
  pySlice_overlong_clamps ([1, 2, 3] : List Int) 200000 (by decide)

/-- C10: load and pitchShift are deterministic functions of their explicit
inputs — load depends only on the file contents and the requested rate, not
on the path name or any other state, and pitchShift depends only on the
samples, the sample_rate and the step count. -/
theorem load_pitchShift_deterministic {α : Type}
    (fsA fsB : String → Option (List Nat))
    (dec : List Nat → Nat → Option (List α)) (pA pB : String) (sr : Nat)
    (dsp : List α → Nat → ℚ → Option (List α)) (bA bB : AudioBuffer α) (n : ℚ)
    (hfile : fsA pA = fsB pB) (hsmp : bA.samples = bB.samples)
    (hrate : bA.sample_rate = bB.sample_rate) :
    load fsA dec pA sr = load fsB dec pB sr ∧
    pitchShift dsp bA n = pitchShift dsp bB n := by
  constructor
  · unfold load; rw [hfile]
  · obtain ⟨sA, rA⟩ := bA
    obtain ⟨sB, rB⟩ := bB
    simp only at hsmp hrate
    subst hsmp; subst hrate
    rfl

/-- C10 witness: the same audio bytes under two different paths in two
filesystems load identically, and pitchShift agrees on two equal buffers. -/
theorem load_pitchShift_deterministic_witness :
    load demoFs demoDec "song.mp3" 41000 = load demoFsCopy demoDec "copy.mp3" 41000 ∧
    pitchShift shiftUpDsp (AudioBuffer.mk ([1, 2] : List Int) 100) 4 =
      pitchShift shiftUpDsp (AudioBuffer.mk ([1, 2] : List Int) 100) 4 :=
  load_pitchShift_deterministic demoFs demoFsCopy demoDec "song.mp3" "copy.mp3"
    41000 shiftUpDsp (AudioBuffer.mk ([1, 2] : List Int) 100)
    (AudioBuffer.mk ([1, 2] : List Int) 100) 4 rfl rfl rfl

end HarmonyHub
